import Mathlib

/-!
Shallow embedding of the `result-pattern` TypeScript module (`src/index.ts`).

Translation convention: a TypeScript method body that can throw is embedded
with codomain `Except Exn _`; a normal `return x` becomes `Except.ok x` and
`throw new Error(m)` becomes `Except.error (Exn.error m)`.  The module only
ever throws via `new Error(message)` (in `Fail.unwrap` and `Fail.expect`),
so `Exn` has the single constructor `Exn.error` carrying the message string.
Caller-supplied callbacks (`mapFn`, `fn`) are modelled as pure Lean
functions: the module's guarantees are stated "assuming caller-supplied
functions themselves return".
-/

/-- JavaScript exception values thrown by this module.  The source throws
only `new Error(message)` (a plain `Error` with a message); no other
exception class is defined or thrown anywhere in `src/index.ts`. -/
inductive Exn where
  | error (message : String)
deriving DecidableEq, Repr

/-- TS `export type Result<V, E> = Ok<V, E> | Fail<V, E>` — a closed sum of the
two classes `Ok` (field `value : V`) and `Fail` (field `value : E`). -/
inductive Result (V E : Type) where
  | Ok (value : V)
  | Fail (value : E)
deriving DecidableEq, Repr

namespace Result

variable {V E NextV NextE : Type}

/-- TS `Ok.isOk = true`, `Fail.isOk = false` (readonly class fields). -/
def isOk : Result V E → Bool
  | Ok _ => true
  | Fail _ => false

/-- TS `Ok.isFail = false`, `Fail.isFail = true` (readonly class fields). -/
def isFail : Result V E → Bool
  | Ok _ => false
  | Fail _ => true

/-- TS `Ok.map`: `return new Ok(mapFn(this.value))`;
`Fail.map`: `return new Fail<NextV, E>(this.value)`. -/
def map (mapFn : V → NextV) : Result V E → Except Exn (Result NextV E)
  | Ok v => .ok (Ok (mapFn v))
  | Fail e => .ok (Fail e)

/-- TS `Ok.flatMap`: `return mapFn(this.value)`;
`Fail.flatMap`: `return new Fail<NextV, E>(this.value)`. -/
def flatMap (mapFn : V → Result NextV E) : Result V E → Except Exn (Result NextV E)
  | Ok v => .ok (mapFn v)
  | Fail e => .ok (Fail e)

/-- TS `Ok.mapFails`: `return new Ok<V, NextE>(this.value)`;
`Fail.mapFails`: `return new Fail<V, NextE>(mapFn(this.value))`. -/
def mapFails (mapFn : E → NextE) : Result V E → Except Exn (Result V NextE)
  | Ok v => .ok (Ok v)
  | Fail e => .ok (Fail (mapFn e))

/-- TS `Ok.flip`: `return new Fail<E, V>(this.value)`;
`Fail.flip`: `return new Ok<E, V>(this.value)`. -/
def flip : Result V E → Except Exn (Result E V)
  | Ok v => .ok (Fail v)
  | Fail e => .ok (Ok e)

/-- TS `Ok.unwrap`: `return this.value`;
`Fail.unwrap`: `throw new Error("Tried to unwrap a Fail result")`. -/
def unwrap : Result V E → Except Exn V
  | Ok v => .ok v
  | Fail _ => .error (Exn.error "Tried to unwrap a Fail result")

/-- TS `Ok.unwrapOr`: `return this.value` (default ignored);
`Fail.unwrapOr`: `return defaultValue`. -/
def unwrapOr (defaultValue : V) : Result V E → Except Exn V
  | Ok v => .ok v
  | Fail _ => .ok defaultValue

/-- TS `Ok.unwrapOrElse`: `return this.value` (function ignored);
`Fail.unwrapOrElse`: `return fn()`. -/
def unwrapOrElse (fn : Unit → V) : Result V E → Except Exn V
  | Ok v => .ok v
  | Fail _ => .ok (fn ())

/-- TS `Ok.expect`: `return this.value` (message ignored);
`Fail.expect`: `throw new Error(message)`. -/
def expect (message : String) : Result V E → Except Exn V
  | Ok v => .ok v
  | Fail _ => .error (Exn.error message)

/-- TS `Ok.and`: `return result`;
`Fail.and`: `return new Fail<NextV, E>(this.value)` (receiver first). -/
def and : Result V E → Result NextV E → Except Exn (Result NextV E)
  | Ok _, result => .ok result
  | Fail e, _ => .ok (Fail e)

/-- TS `Ok.or`: `return this` (the receiver itself, an `Ok`);
`Fail.or`: `return result` (receiver first). -/
def or : Result V E → Result V E → Except Exn (Result V E)
  | Ok v, _ => .ok (Ok v)
  | Fail _, result => .ok result

/-- TS `Ok.unwrapOrGetErrors(): V`: `return this.value`;
`Fail.unwrapOrGetErrors(): E`: `return this.value`.  The TypeScript return
type is the union `V | E`; the embedding keeps the two sides apart with a
disjoint sum (`Sum.inl` for the `Ok` value, `Sum.inr` for the error). -/
def unwrapOrGetErrors : Result V E → Except Exn (Sum V E)
  | Ok v => .ok (Sum.inl v)
  | Fail e => .ok (Sum.inr e)

/-! State-passing embeddings of the eleven interface methods, for the
immutability claim.  A TypeScript method call yields the returned value and
leaves the receiver object in some state.  Every field of `Ok` and `Fail`
is `readonly` and no method body contains an assignment, so each
translation pairs the method's result with the receiver exactly as it
stands at `return` / `throw`. -/

/-- TS `map` as a call on a receiver: (receiver after the call, returned value). -/
def mapCall (mapFn : V → NextV) : Result V E → Result V E × Except Exn (Result NextV E)
  | Ok v => (Ok v, .ok (Ok (mapFn v)))
  | Fail e => (Fail e, .ok (Fail e))

/-- TS `flatMap` as a call on a receiver. -/
def flatMapCall (mapFn : V → Result NextV E) :
    Result V E → Result V E × Except Exn (Result NextV E)
  | Ok v => (Ok v, .ok (mapFn v))
  | Fail e => (Fail e, .ok (Fail e))

/-- TS `mapFails` as a call on a receiver. -/
def mapFailsCall (mapFn : E → NextE) :
    Result V E → Result V E × Except Exn (Result V NextE)
  | Ok v => (Ok v, .ok (Ok v))
  | Fail e => (Fail e, .ok (Fail (mapFn e)))

/-- TS `flip` as a call on a receiver. -/
def flipCall : Result V E → Result V E × Except Exn (Result E V)
  | Ok v => (Ok v, .ok (Fail v))
  | Fail e => (Fail e, .ok (Ok e))

/-- TS `unwrap` as a call on a receiver. -/
def unwrapCall : Result V E → Result V E × Except Exn V
  | Ok v => (Ok v, .ok v)
  | Fail e => (Fail e, .error (Exn.error "Tried to unwrap a Fail result"))

/-- TS `unwrapOr` as a call on a receiver. -/
def unwrapOrCall (defaultValue : V) : Result V E → Result V E × Except Exn V
  | Ok v => (Ok v, .ok v)
  | Fail e => (Fail e, .ok defaultValue)

/-- TS `unwrapOrElse` as a call on a receiver. -/
def unwrapOrElseCall (fn : Unit → V) : Result V E → Result V E × Except Exn V
  | Ok v => (Ok v, .ok v)
  | Fail e => (Fail e, .ok (fn ()))

/-- TS `expect` as a call on a receiver. -/
def expectCall (message : String) : Result V E → Result V E × Except Exn V
  | Ok v => (Ok v, .ok v)
  | Fail e => (Fail e, .error (Exn.error message))

/-- TS `and` as a call on a receiver (receiver first). -/
def andCall : Result V E → Result NextV E → Result V E × Except Exn (Result NextV E)
  | Ok v, result => (Ok v, .ok result)
  | Fail e, _ => (Fail e, .ok (Fail e))

/-- TS `or` as a call on a receiver (receiver first). -/
def orCall : Result V E → Result V E → Result V E × Except Exn (Result V E)
  | Ok v, _ => (Ok v, .ok (Ok v))
  | Fail e, result => (Fail e, .ok result)

/-- TS `unwrapOrGetErrors` as a call on a receiver. -/
def unwrapOrGetErrorsCall : Result V E → Result V E × Except Exn (Sum V E)
  | Ok v => (Ok v, .ok (Sum.inl v))
  | Fail e => (Fail e, .ok (Sum.inr e))

end Result

namespace ResultUtils

variable {V E : Type}

/-- TS `const failValues = results.filter((r) => r instanceof Fail).map((f) => f.value)`:
filtering on the `Fail` class and projecting the `value` field of each kept
element is a `filterMap` on the `Fail` constructor. -/
def failValues (results : List (Result V E)) : List E :=
  results.filterMap fun r => match r with
    | .Fail e => some e
    | .Ok _ => none

/-- TS `const okValues = results.map((r) => r.unwrapOr(null))`: this line only
runs on the branch where `results` contains no `Fail` (see `combine`), where
mapping `r.unwrapOr(null)` extracts each `Ok`'s `value` in order; the
`filterMap` on the `Ok` constructor computes the same list there (lemma
`okValues_eq_of_no_fail` below checks the two agree whenever no element is a
`Fail`, for every choice of the dummy default standing in for `null`). -/
def okValues (results : List (Result V E)) : List V :=
  results.filterMap fun r => match r with
    | .Ok v => some v
    | .Fail _ => none

/-- TS `ResultUtils.combine(...results)`: collects all `Fail` values; when at
least one input failed returns `new Fail(failValues)`, otherwise returns
`new Ok(okValues)`.  The heterogeneous variadic tuple of the TypeScript
signature is embedded as a homogeneous list (the runtime treats `results`
as a plain array; types are erased). -/
def combine (results : List (Result V E)) : Except Exn (Result (List V) (List E)) :=
  let fails := failValues results
  if fails.length > 0 then
    .ok (.Fail fails)
  else
    .ok (.Ok (okValues results))

end ResultUtils

/-- The purely value-level reading of `r.unwrapOr(d)` (it never throws):
used only to relate `okValues` to the source's `map (unwrapOr null)`. -/
def unwrapOrValue {V E : Type} (d : V) : Result V E → V
  | .Ok v => v
  | .Fail _ => d

/-- Spec-side description of `combine`'s failure payload, written from the
spec's words: "the list of the error values of exactly the failing inputs,
in their original relative order".  Compared against the implementation in
the `combine` theorems. -/
def specCollectedErrors {V E : Type} : List (Result V E) → List E
  | [] => []
  | .Ok _ :: rest => specCollectedErrors rest
  | .Fail e :: rest => e :: specCollectedErrors rest

/-! Helper lemmas shared by the claim theorems. -/

/-- On a list with no `Fail` element, `filterMap` on the `Ok` constructor
agrees with mapping `unwrapOr d` for every default `d` — so the embedding of
the `okValues` line does not depend on the inexpressible `null`. -/
theorem okValues_eq_of_no_fail {V E : Type} (d : V) :
    ∀ results : List (Result V E), (∀ r ∈ results, r.isFail = false) →
      ResultUtils.okValues results = results.map (unwrapOrValue d) := by
  intro results h
  induction results with
  | nil => rfl
  | cons hd tl ih =>
    cases hd with
    | Ok v =>
      simp only [ResultUtils.okValues, List.filterMap_cons, List.map_cons] at *
      exact congrArg (v :: ·) (ih fun r hr => h r (List.mem_cons_of_mem _ hr))
    | Fail e =>
      have := h (.Fail e) (List.mem_cons_self _ _)
      simp [Result.isFail] at this

/-- The spec-side collection coincides with the implementation's
`failValues` (filter on the `Fail` class, then project `value`). -/
theorem failValues_eq_specCollectedErrors {V E : Type} :
    ∀ results : List (Result V E),
      ResultUtils.failValues results = specCollectedErrors results := by
  intro results
  induction results with
  | nil => rfl
  | cons hd tl ih =>
    cases hd <;> simp [ResultUtils.failValues, specCollectedErrors,
      List.filterMap_cons] at * <;> exact ih

/-- When no input is a `Fail`, the collected `failValues` list is empty. -/
theorem failValues_eq_nil {V E : Type} (results : List (Result V E))
    (h : ∀ r ∈ results, r.isFail = false) : ResultUtils.failValues results = [] := by
  induction results with
  | nil => rfl
  | cons hd tl ih =>
    cases hd with
    | Ok v =>
      simp only [ResultUtils.failValues, List.filterMap_cons]
      exact ih fun r hr => h r (List.mem_cons_of_mem _ hr)
    | Fail e =>
      have := h (.Fail e) (List.mem_cons_self _ _)
      simp [Result.isFail] at this

/-- When no input is a `Fail`, the input list is exactly the `Ok` image of
the collected `okValues` — each success value sits at the index of its
input. -/
theorem eq_map_ok_okValues {V E : Type} (results : List (Result V E))
    (h : ∀ r ∈ results, r.isFail = false) :
    results = (ResultUtils.okValues results).map Result.Ok := by
  induction results with
  | nil => rfl
  | cons hd tl ih =>
    cases hd with
    | Ok v =>
      simp only [ResultUtils.okValues, List.filterMap_cons, List.map_cons]
      exact congrArg (Result.Ok v :: ·) (ih fun r hr => h r (List.mem_cons_of_mem _ hr))
    | Fail e =>
      have := h (.Fail e) (List.mem_cons_self _ _)
      simp [Result.isFail] at this

/-- A failing input contributes its error to `failValues`, so the list is
then non-empty. -/
theorem failValues_ne_nil {V E : Type} (results : List (Result V E))
    (h : ∃ r ∈ results, r.isFail = true) : ResultUtils.failValues results ≠ [] := by
  obtain ⟨r, hr, hf⟩ := h
  cases r with
  | Ok v => simp [Result.isFail] at hf
  | Fail e =>
    intro hnil
    have : e ∈ ResultUtils.failValues results := by
      unfold ResultUtils.failValues
      exact List.mem_filterMap.2 ⟨.Fail e, hr, rfl⟩
    rw [hnil] at this
    exact (List.not_mem_nil e) this

/-- The length of `failValues` counts exactly the failing inputs. -/
theorem length_failValues {V E : Type} (results : List (Result V E)) :
    (ResultUtils.failValues results).length = results.countP (fun r => r.isFail) := by
  induction results with
  | nil => rfl
  | cons hd tl ih =>
    cases hd <;>
      simp [ResultUtils.failValues, List.filterMap_cons, List.countP_cons,
        Result.isFail] at * <;> omega

/-- TS `combine` always returns normally: both branches of its conditional end
in an ordinary `return`. -/
theorem combine_returns {V E : Type} (results : List (Result V E)) :
    ∃ x, ResultUtils.combine results = .ok x := by
  unfold ResultUtils.combine
  dsimp only
  split
  · exact ⟨_, rfl⟩
  · exact ⟨_, rfl⟩

/-! The claim theorems. -/

/-- C1 (counterexample): the abrupt-termination signal of `unwrap()` on a
`Fail` is NOT a distinct exception type.  At the concrete input
`Fail "boom"`, `unwrap` throws the generic `Error` constructor (`Exn.error`
— the embedding of JavaScript's plain `new Error(...)`, the only exception
shape the module ever produces), and the thrown value is identical to the
exception produced by `expect` with the caller-supplied message
`"Tried to unwrap a Fail result"`: nothing but the message string
distinguishes it, so no type-based catch can tell them apart.  The source
defines no `UnwrapOnFailure` class at all. -/
theorem C1_counterexample_unwrap_signal_not_distinct :
    (Result.Fail "boom" : Result Nat String).unwrap
        = Except.error (Exn.error "Tried to unwrap a Fail result") ∧
      (Result.Fail "boom" : Result Nat String).unwrap
        = (Result.Fail "other" : Result Nat String).expect "Tried to unwrap a Fail result" :=
  ⟨rfl, rfl⟩

/-- C1 (amended): when `unwrap()` is invoked on a `Fail`, it throws a plain
generic `Error` carrying the fixed message `"Tried to unwrap a Fail
result"`; on an `Ok` it returns the held value without throwing.  The
abrupt termination is distinguishable from represented failures by channel
(thrown, while represented failures are always returned as `Fail` values),
but not by a distinct exception type: the module defines no
`UnwrapOnFailure` type and throws only the host language's generic
`Error`. -/
theorem C1_unwrap_throws_plain_generic_error {V E : Type} (v : V) (e : E) :
    (Result.Fail e : Result V E).unwrap
        = Except.error (Exn.error "Tried to unwrap a Fail result") ∧
      (Result.Ok v : Result V E).unwrap = Except.ok v :=
  ⟨rfl, rfl⟩

/-- C2: for every finite list of results handed to `combine`: if all are
successes, it returns `Ok` of the list of their values with each value at
the index of its input (the input list is exactly the `Ok` image of the
output list); if at least one is a failure, it returns `Fail` of the list
of the error values of exactly the failing inputs in their original
relative order (the spec-side collection `specCollectedErrors`) — every
input is inspected, all errors are collected, and no success value appears
in the failure output nor vice versa. -/
theorem C2_combine_collects_all {V E : Type} (results : List (Result V E)) :
    ((∀ r ∈ results, r.isFail = false) →
        ∃ vs, ResultUtils.combine results = .ok (.Ok vs) ∧
          results = vs.map Result.Ok) ∧
      ((∃ r ∈ results, r.isFail = true) →
        ResultUtils.combine results = .ok (.Fail (specCollectedErrors results))) := by
  constructor
  · intro h
    refine ⟨ResultUtils.okValues results, ?_, eq_map_ok_okValues results h⟩
    unfold ResultUtils.combine
    rw [failValues_eq_nil results h]
    rfl
  · intro h
    have hne := failValues_ne_nil results h
    have hpos : 0 < (ResultUtils.failValues results).length :=
      List.length_pos.2 hne
    unfold ResultUtils.combine
    rw [← failValues_eq_specCollectedErrors]
    simp only [hpos, if_pos]

/-- C2 (witness): `combine` applied at concrete inputs — an all-success
list yields `Ok [1, 2]` in order, and a mixed list yields exactly the two
errors `"a"` and `"b"` in their original relative order. -/
theorem C2_combine_collects_all_witness :
    (∃ vs, ResultUtils.combine ([Result.Ok 1, Result.Ok 2] : List (Result Nat String))
          = .ok (.Ok vs) ∧
        ([Result.Ok 1, Result.Ok 2] : List (Result Nat String)) = vs.map Result.Ok) ∧
      ResultUtils.combine
          ([Result.Fail "a", Result.Ok 1, Result.Fail "b"] : List (Result Nat String))
        = .ok (.Fail (specCollectedErrors
            ([Result.Fail "a", Result.Ok 1, Result.Fail "b"] : List (Result Nat String)))) :=
  ⟨(C2_combine_collects_all ([Result.Ok 1, Result.Ok 2] : List (Result Nat String))).1
      (by decide),
    (C2_combine_collects_all
        ([Result.Fail "a", Result.Ok 1, Result.Fail "b"] : List (Result Nat String))).2
      ⟨Result.Fail "a", by decide, rfl⟩⟩

/-- C3: `unwrap` and `expect` are the only operations that can throw.
Every other operation — `map`, `flatMap`, `mapFails`, `flip`, `unwrapOr`,
`unwrapOrElse`, `and`, `or`, `unwrapOrGetErrors`, and `combine` over any
mix of successes and failures — always returns normally (an `Except.ok`
value), for every receiver and all caller-supplied arguments; and `unwrap`
and `expect` do throw when the receiver is a `Fail`. -/
theorem C3_only_unwrap_and_expect_throw {V E NextV NextE : Type}
    (r : Result V E) (f : V → NextV) (g : V → Result NextV E) (k : E → NextE)
    (d : V) (fn : Unit → V) (oth : Result NextV E) (alt : Result V E)
    (rs : List (Result V E)) (e : E) (m : String) :
    (∃ x, r.map f = .ok x) ∧ (∃ x, r.flatMap g = .ok x) ∧
      (∃ x, r.mapFails k = .ok x) ∧ (∃ x, r.flip = .ok x) ∧
      (∃ x, r.unwrapOr d = .ok x) ∧ (∃ x, r.unwrapOrElse fn = .ok x) ∧
      (∃ x, r.and oth = .ok x) ∧ (∃ x, r.or alt = .ok x) ∧
      (∃ x, r.unwrapOrGetErrors = .ok x) ∧
      (∃ x, ResultUtils.combine rs = .ok x) ∧
      (∃ ex, (Result.Fail e : Result V E).unwrap = .error ex) ∧
      (∃ ex, (Result.Fail e : Result V E).expect m = .error ex) := by
  refine ⟨?_, ?_, ?_, ?_, ?_, ?_, ?_, ?_, ?_, combine_returns rs, ⟨_, rfl⟩, ⟨_, rfl⟩⟩ <;>
    cases r <;> exact ⟨_, rfl⟩

/-- C4: `flip` swaps the variant carrying the exact same payload — an
`Ok v` becomes `Fail v` and a `Fail e` becomes `Ok e` — and `flip` is
involutive: flipping any result twice gives back the original result. -/
theorem C4_flip_swaps_and_is_involutive {V E : Type} (v : V) (e : E) (r : Result V E) :
    (Result.Ok v : Result V E).flip = .ok (.Fail v) ∧
      (Result.Fail e : Result V E).flip = .ok (.Ok e) ∧
      ∃ r2, r.flip = .ok r2 ∧ r2.flip = .ok r := by
  refine ⟨rfl, rfl, ?_⟩
  cases r with
  | Ok v2 => exact ⟨.Fail v2, rfl, rfl⟩
  | Fail e2 => exact ⟨.Ok e2, rfl, rfl⟩

/-- C5: the functor laws hold — `Ok v |>.map id = Ok v`,
`Fail e |>.mapFails id = Fail e`, and for every success-bearing result and
functions `f`, `g`, mapping `f` then `g` equals mapping their
composition. -/
theorem C5_functor_laws {V E NextV NextV2 : Type}
    (v : V) (e : E) (f : V → NextV) (g : NextV → NextV2) :
    (Result.Ok v : Result V E).map id = .ok (.Ok v) ∧
      (Result.Fail e : Result V E).mapFails id = .ok (.Fail e) ∧
      ((Result.Ok v : Result V E).map f).bind (Result.map g)
        = (Result.Ok v : Result V E).map (fun x => g (f x)) :=
  ⟨rfl, rfl, rfl⟩

/-- C6: `combine` with zero inputs returns `Ok` of the empty list (the
vacuously all-success case) — not a `Fail`, and no exception. -/
theorem C6_combine_empty (V E : Type) :
    ResultUtils.combine ([] : List (Result V E)) = .ok (.Ok []) := rfl

/-- C7: `unwrapOrElse f` on an `Ok` returns the held value, the supplied
function is never consulted (the answer is the same whatever function is
passed); on a `Fail` it returns exactly `f ()`. -/
theorem C7_unwrapOrElse_lazy_default {V E : Type} (v : V) (e : E) (f g : Unit → V) :
    (Result.Ok v : Result V E).unwrapOrElse f = .ok v ∧
      (Result.Ok v : Result V E).unwrapOrElse f
        = (Result.Ok v : Result V E).unwrapOrElse g ∧
      (Result.Fail e : Result V E).unwrapOrElse f = .ok (f ()) :=
  ⟨rfl, rfl, rfl⟩

/-- C8: a result is immutable once constructed.  In the state-passing
embedding of every interface method (all fields of `Ok`/`Fail` are
`readonly` and no method body assigns), the receiver after any call —
including the throwing paths of `unwrap`/`expect` — is exactly the
receiver before it, so its variant tag and its held payload are unchanged;
and the value each call returns is the one computed by the corresponding
transformation, a `Result` constructed anew (or a payload), never the
receiver altered in place. -/
theorem C8_results_are_immutable {V E NextV NextE : Type}
    (r : Result V E) (f : V → NextV) (g : V → Result NextV E) (k : E → NextE)
    (d : V) (fn : Unit → V) (m : String) (oth : Result NextV E) (alt : Result V E) :
    ((Result.mapCall f r).1 = r ∧ (Result.flatMapCall g r).1 = r ∧
        (Result.mapFailsCall k r).1 = r ∧ (Result.flipCall r).1 = r ∧
        (Result.unwrapCall r).1 = r ∧ (Result.unwrapOrCall d r).1 = r ∧
        (Result.unwrapOrElseCall fn r).1 = r ∧ (Result.expectCall m r).1 = r ∧
        (Result.andCall r oth).1 = r ∧ (Result.orCall r alt).1 = r ∧
        (Result.unwrapOrGetErrorsCall r).1 = r) ∧
      ((Result.mapCall f r).2 = r.map f ∧ (Result.flatMapCall g r).2 = r.flatMap g ∧
        (Result.mapFailsCall k r).2 = r.mapFails k ∧ (Result.flipCall r).2 = r.flip ∧
        (Result.unwrapCall r).2 = r.unwrap ∧ (Result.unwrapOrCall d r).2 = r.unwrapOr d ∧
        (Result.unwrapOrElseCall fn r).2 = r.unwrapOrElse fn ∧
        (Result.expectCall m r).2 = r.expect m ∧
        (Result.andCall r oth).2 = r.and oth ∧ (Result.orCall r alt).2 = r.or alt ∧
        (Result.unwrapOrGetErrorsCall r).2 = r.unwrapOrGetErrors) := by
  cases r <;>
    exact ⟨⟨rfl, rfl, rfl, rfl, rfl, rfl, rfl, rfl, rfl, rfl, rfl⟩,
      ⟨rfl, rfl, rfl, rfl, rfl, rfl, rfl, rfl, rfl, rfl, rfl⟩⟩

/-- C9: whenever `combine` returns a `Fail`, its payload is a list of
errors whose length equals the number of failing inputs — in particular it
is non-empty, and when exactly one input fails the payload is a
one-element list wrapping that single error, never the bare error. -/
theorem C9_combine_fail_payload_structure {V E : Type}
    (results : List (Result V E)) (errs : List E)
    (h : ResultUtils.combine results = .ok (.Fail errs)) :
    errs.length = results.countP (fun r => r.isFail) ∧
      0 < errs.length ∧
      (results.countP (fun r => r.isFail) = 1 → ∃ e, errs = [e]) := by
  unfold ResultUtils.combine at h
  by_cases hpos : 0 < (ResultUtils.failValues results).length
  · simp only [hpos, if_pos] at h
    have herrs : errs = ResultUtils.failValues results := by
      cases h
      rfl
    subst herrs
    refine ⟨length_failValues results, hpos, ?_⟩
    intro hone
    rw [← length_failValues results] at hone
    match hlist : ResultUtils.failValues results, hone with
    | [e], _ => exact ⟨e, rfl⟩
  · simp only [hpos, if_neg] at h
    exact absurd h (by simp)

/-- C9 (witness): at the concrete input `[Fail "a", Ok 1]` the failure
payload is the one-element list `["a"]`. -/
theorem C9_combine_fail_payload_structure_witness :
    ((["a"] : List String)).length
        = ([Result.Fail "a", Result.Ok 1] : List (Result Nat String)).countP
            (fun r => r.isFail) ∧
      0 < ((["a"] : List String)).length ∧
      ∃ e, (["a"] : List String) = [e] := by
  have h := C9_combine_fail_payload_structure
    ([Result.Fail "a", Result.Ok 1] : List (Result Nat String)) ["a"] rfl
  exact ⟨h.1, h.2.1, h.2.2 (by decide)⟩

/-- C10: every result satisfies `isOk = !isFail`; the variant is fixed by
the constructor alone, never by the payload — for every payload, including
the embedding of `null` and `undefined` (`none : Option _`), a constructed
`Ok` has `isOk = true` and `unwrap` returns the payload without throwing,
and a constructed `Fail` has `isFail = true` and behaves as a failure in
every operation. -/
theorem C10_variant_determined_by_constructor {V E NextV NextE : Type}
    (r : Result V E) (v : V) (e : E) (f : V → NextV) (g : V → Result NextV E)
    (k : E → NextE) (d : V) (fn : Unit → V) (m : String)
    (oth : Result NextV E) (alt : Result V E) :
    r.isOk = !r.isFail ∧
      (Result.Ok v : Result V E).isOk = true ∧
      (Result.Ok v : Result V E).isFail = false ∧
      (Result.Ok v : Result V E).unwrap = .ok v ∧
      (Result.Ok (none : Option V) : Result (Option V) E).isOk = true ∧
      (Result.Ok (none : Option V) : Result (Option V) E).unwrap = .ok none ∧
      (Result.Fail e : Result V E).isFail = true ∧
      (Result.Fail e : Result V E).isOk = false ∧
      (Result.Fail (none : Option E) : Result V (Option E)).isFail = true ∧
      (Result.Fail e : Result V E).map f = .ok (.Fail e) ∧
      (Result.Fail e : Result V E).flatMap g = .ok (.Fail e) ∧
      (Result.Fail e : Result V E).mapFails k = .ok (.Fail (k e)) ∧
      (Result.Fail e : Result V E).flip = .ok (.Ok e) ∧
      (Result.Fail e : Result V E).unwrap
          = .error (Exn.error "Tried to unwrap a Fail result") ∧
      (Result.Fail e : Result V E).unwrapOr d = .ok d ∧
      (Result.Fail e : Result V E).unwrapOrElse fn = .ok (fn ()) ∧
      (Result.Fail e : Result V E).expect m = .error (Exn.error m) ∧
      (Result.Fail e : Result V E).and oth = .ok (.Fail e) ∧
      (Result.Fail e : Result V E).or alt = .ok alt ∧
      (Result.Fail e : Result V E).unwrapOrGetErrors = .ok (Sum.inr e) := by
  refine ⟨?_, rfl, rfl, rfl, rfl, rfl, rfl, rfl, rfl, rfl, rfl, rfl, rfl, rfl,
    rfl, rfl, rfl, rfl, rfl, rfl⟩
  cases r <;> rfl
